import Mathlib

/-!
Verification of the core of `rust-hyperscan`: the owning foreign buffer
`CPtr<T>` (src/cptr.rs) and the three scan dispatchers (block, vectored,
streaming) of src/hyperscan/src/runtime/scan.rs.

Machine integers are modelled as `Nat` with explicit `% 2 ^ 32` where the
source truncates (`as u32` / `as c_uint`); raw pointers are modelled as `Nat`
addresses with `0` playing the role of the null pointer; the foreign heap is
an explicit association list threaded through the operations.
-/

/-! ## Owning foreign buffer: `CPtr<T>` (src/cptr.rs) -/

/-- Observable allocator / value-lifecycle events emitted by `CPtr`
operations. `readOut a` is `ptr::read` at address `a` (it moves the stored
value back out, running its teardown under normal Rust semantics); `free a`
is `libc::free` of the block at `a`; `malloc a` records that `libc::malloc`
returned address `a`; `write a v` is `ptr::write` of `v` into the block at
`a` (which runs no teardown on the block's prior contents). -/
inductive Event (T : Type) where
  | malloc (addr : Nat)
  | write (addr : Nat) (v : T)
  | readOut (addr : Nat)
  | free (addr : Nat)

/-- True exactly on `ptr::read` events (the teardown of the stored value). -/
def Event.isReadOut {T : Type} : Event T → Bool
  | .readOut _ => true
  | _ => false

/-- True exactly on `libc::free` events. -/
def Event.isFree {T : Type} : Event T → Bool
  | .free _ => true
  | _ => false

/-- The foreign heap: initialized cells, as address/value pairs. -/
abbrev Heap (T : Type) := List (Nat × T)

/-- Value stored at address `a`, if `a` is an initialized cell. -/
def Heap.lookup {T : Type} : Heap T → Nat → Option T
  | [], _ => none
  | (b, v) :: rest, a => if b = a then some v else Heap.lookup rest a

/-- Remove the cell at address `a` (the effect of `libc::free` on it). -/
def Heap.erase {T : Type} (h : Heap T) (a : Nat) : Heap T :=
  h.filter fun c => c.1 != a

/-- `CPtr<T>` (src/cptr.rs line 8): a raw pointer, nothing else. -/
structure CPtr (T : Type) where
  ptr : Nat

/-- `CPtr::new` (src/cptr.rs lines 11-26). `addr` is the address
`libc::malloc` returned for this call (`0` = null). The source asserts the
pointer is non-null — a process-fatal, unrecoverable abort modelled as
`none` — and otherwise `ptr::write`s the value into the fresh block without
dropping the block's uninitialized prior contents. Returns the wrapper, the
heap after the write, and the event trace of the call. -/
def CPtr.new {T : Type} (addr : Nat) (value : T) (h : Heap T) :
    Option (CPtr T × Heap T × List (Event T)) :=
  if addr = 0 then none
  else some (⟨addr⟩, (addr, value) :: h, [Event.malloc addr, Event.write addr value])

/-- `CPtr::from_ptr` (src/cptr.rs lines 28-31): stores the given pointer
with no validation of any kind. -/
def CPtr.from_ptr {T : Type} (p : Nat) : CPtr T :=
  ⟨p⟩

/-- `Borrow<T> for CPtr<T>` (src/cptr.rs lines 34-41): dereference the
stored pointer. On an address that is no initialized cell the dereference is
undefined behaviour, modelled as `none`. -/
def CPtr.borrow {T : Type} (p : CPtr T) (h : Heap T) : Option T :=
  Heap.lookup h p.ptr

/-- `Drop for CPtr<T>` (src/cptr.rs lines 52-67): in order, `ptr::read` of
the stored pointer (running the contained value's teardown exactly once),
then `libc::free` of the same pointer, then `self.0 = ptr::null_mut()`.
Returns the wrapper after the null-out, the heap after the free, and the
event trace of the drop in execution order. -/
def CPtr.drop {T : Type} (p : CPtr T) (h : Heap T) :
    CPtr T × Heap T × List (Event T) :=
  (⟨0⟩, Heap.erase h p.ptr, [Event.readOut p.ptr, Event.free p.ptr])

/-! ### Claims about `CPtr` -/

/-- C5: `CPtr::new` either returns a wrapper whose pointer is non-null and
points at freshly allocated foreign memory holding the moved-in value,
written without running any teardown on the uninitialized prior contents
(no `readOut` event in the trace), or — when `libc::malloc` returns null —
aborts fatally (`none`) instead of returning a value or recoverable error. -/
theorem cptr_new_nonnull_or_fatal (T : Type) (addr : Nat) (v : T) (h : Heap T) :
    (addr ≠ 0 →
      CPtr.new addr v h =
          some (⟨addr⟩, (addr, v) :: h, [Event.malloc addr, Event.write addr v]) ∧
        (⟨addr⟩ : CPtr T).ptr ≠ 0 ∧
        Heap.lookup ((addr, v) :: h) addr = some v ∧
        ([Event.malloc addr, Event.write addr v] : List (Event T)).countP Event.isReadOut = 0) ∧
    (addr = 0 → CPtr.new addr v h = none) := by
  constructor
  · intro ha
    refine ⟨by simp [CPtr.new, ha], ha, by simp [Heap.lookup], ?_⟩
    simp [List.countP_cons, Event.isReadOut]
  · intro ha
    simp [CPtr.new, ha]

/-- C4: destroying a `CPtr` built by `CPtr::new` performs, in order, exactly
one `ptr::read` (the contained value's teardown), then exactly one
`libc::free` of the very address `libc::malloc` produced at acquisition,
then sets the internal pointer to null; across the whole lifetime trace the
teardown and the free each occur exactly once, even though the value was
never read back between construction and drop. -/
theorem cptr_drop_runs_teardown_then_frees_then_nulls (T : Type) (addr : Nat) (v : T)
    (h : Heap T) (ha : addr ≠ 0) :
    ∃ p h1 tr1, CPtr.new addr v h = some (p, h1, tr1) ∧
      (CPtr.drop p h1).2.2 = [Event.readOut addr, Event.free addr] ∧
      (CPtr.drop p h1).1.ptr = 0 ∧
      (tr1 ++ (CPtr.drop p h1).2.2).countP Event.isReadOut = 1 ∧
      (tr1 ++ (CPtr.drop p h1).2.2).countP Event.isFree = 1 ∧
      Event.malloc addr ∈ tr1 := by
  refine ⟨⟨addr⟩, (addr, v) :: h, [Event.malloc addr, Event.write addr v],
    by simp [CPtr.new, ha], rfl, rfl, ?_, ?_, by simp⟩ <;>
  simp [CPtr.drop, List.countP_cons, Event.isReadOut, Event.isFree]

/-- Witness for C4 at the concrete input `T = Nat`, `addr = 5`, `v = 3`,
empty initial heap. -/
theorem cptr_drop_runs_teardown_then_frees_then_nulls_witness :
    ∃ p h1 tr1, CPtr.new 5 (3 : Nat) [] = some (p, h1, tr1) ∧
      (CPtr.drop p h1).2.2 = [Event.readOut 5, Event.free 5] ∧
      (CPtr.drop p h1).1.ptr = 0 ∧
      (tr1 ++ (CPtr.drop p h1).2.2).countP Event.isReadOut = 1 ∧
      (tr1 ++ (CPtr.drop p h1).2.2).countP Event.isFree = 1 ∧
      Event.malloc 5 ∈ tr1 :=
  cptr_drop_runs_teardown_then_frees_then_nulls Nat 5 3 [] (by decide)

/-- C6: round-trip — constructing a `CPtr` via `CPtr::new v` and immediately
borrowing the contained value yields exactly `v`. -/
theorem cptr_new_borrow_roundtrip (T : Type) (addr : Nat) (v : T) (h : Heap T)
    (ha : addr ≠ 0) :
    ∃ p h1 tr, CPtr.new addr v h = some (p, h1, tr) ∧ CPtr.borrow p h1 = some v :=
  ⟨⟨addr⟩, (addr, v) :: h, [Event.malloc addr, Event.write addr v],
    by simp [CPtr.new, ha], by simp [CPtr.borrow, Heap.lookup]⟩

/-- Witness for C6 at the concrete input `T = Nat`, `addr = 7`, `v = 42`,
empty initial heap. -/
theorem cptr_new_borrow_roundtrip_witness :
    ∃ p h1 tr, CPtr.new 7 (42 : Nat) [] = some (p, h1, tr) ∧
      CPtr.borrow p h1 = some 42 :=
  cptr_new_borrow_roundtrip Nat 7 42 [] (by decide)

/-- C9: `CPtr::from_ptr` stores exactly the pointer it is given with no
validation — it accepts the null pointer `0` (unlike `CPtr::new`, which
aborts when the allocator yields null), and the resulting wrapper's borrow
and drop dereference / free that pointer exactly as given. -/
theorem cptr_from_ptr_stores_pointer_unchecked (T : Type) (v : T) (p : Nat) (h : Heap T) :
    (CPtr.from_ptr p : CPtr T).ptr = p ∧
    (CPtr.from_ptr 0 : CPtr T).ptr = 0 ∧
    CPtr.new 0 v h = none ∧
    CPtr.borrow (CPtr.from_ptr p) h = Heap.lookup h p ∧
    (CPtr.drop (CPtr.from_ptr p : CPtr T) h).2.2 = [Event.readOut p, Event.free p] := by
  exact ⟨rfl, rfl, by simp [CPtr.new], rfl, rfl⟩

/-! ## Scan dispatchers (src/hyperscan/src/runtime/scan.rs) -/

/-- A scannable buffer: its data pointer (`as_ptr`) and its byte contents
(`as_ref::<[u8]>()`; `len()` is `bytes.length`). -/
structure Buffer where
  ptr : Nat
  bytes : List Nat

/-- `MatchEventCallback<D>` (src/hyperscan/src/runtime/scan.rs line 36):
`Option<fn(id: u32, from: u64, to: u64, flags: u32, data: &D) -> u32>`.
`none` is transmuted to the null callback function pointer. -/
def MatchEventCallback (D : Type) : Type :=
  Option (Nat → Nat → Nat → Nat → D → Nat)

/-- Argument record of one `ffi::hs_scan` call, field for field
(src/hyperscan/src/runtime/scan.rs lines 52-63). -/
structure HsScanArgs (D : Type) where
  db : Nat
  data : Nat
  length : Nat
  flags : Nat
  scratch : Nat
  onEvent : MatchEventCallback D
  context : Option D

/-- Argument record of one `ffi::hs_scan_vector` call
(src/hyperscan/src/runtime/scan.rs lines 89-99): `data` is the pointer
array, `length` the length array, `count` the buffer count passed as `u32`. -/
structure HsScanVectorArgs (D : Type) where
  db : Nat
  data : List Nat
  length : List Nat
  count : Nat
  flags : Nat
  scratch : Nat
  onEvent : MatchEventCallback D
  context : Option D

/-- Argument record of one `ffi::hs_scan_stream` call
(src/hyperscan/src/runtime/scan.rs lines 119-128). -/
structure HsScanStreamArgs (D : Type) where
  streamId : Nat
  data : Nat
  length : Nat
  flags : Nat
  scratch : Nat
  onEvent : MatchEventCallback D
  context : Option D

/-- Arguments `DatabaseRef<Block>::scan` hands to `ffi::hs_scan`
(src/hyperscan/src/runtime/scan.rs lines 40-64): the buffer's data pointer,
its length truncated by `as u32`, the literal flags `0`, the scratch, and
the callback/context pair transmuted as given. -/
def blockScanArgs {D : Type} (db : Nat) (data : Buffer) (scratch : Nat)
    (callback : MatchEventCallback D) (context : Option D) : HsScanArgs D :=
  { db := db, data := data.ptr, length := data.bytes.length % 2 ^ 32, flags := 0,
    scratch := scratch, onEvent := callback, context := context }

/-- Arguments `DatabaseRef<Vectored>::scan` hands to `ffi::hs_scan_vector`
(src/hyperscan/src/runtime/scan.rs lines 69-102): the input sequence is
mapped in iteration order to `(buf.as_ptr(), buf.len() as c_uint)` pairs and
unzipped into the parallel pointer and length arrays; the count passed is
`ptrs.len() as u32`; flags are the literal `0`. -/
def vectoredScanArgs {D : Type} (db : Nat) (data : List Buffer) (scratch : Nat)
    (callback : MatchEventCallback D) (context : Option D) : HsScanVectorArgs D :=
  let pl := (data.map fun buf => (buf.ptr, buf.bytes.length % 2 ^ 32)).unzip
  { db := db, data := pl.1, length := pl.2, count := pl.1.length % 2 ^ 32,
    flags := 0, scratch := scratch, onEvent := callback, context := context }

/-- Arguments `Stream::scan` hands to `ffi::hs_scan_stream`
(src/hyperscan/src/runtime/scan.rs lines 107-131): the stream handle, the
chunk's data pointer and `as u32` length, the literal flags `0`, the
scratch, and the callback/context pair as given. -/
def streamScanArgs {D : Type} (sid : Nat) (data : Buffer) (scratch : Nat)
    (callback : MatchEventCallback D) (context : Option D) : HsScanStreamArgs D :=
  { streamId := sid, data := data.ptr, length := data.bytes.length % 2 ^ 32,
    flags := 0, scratch := scratch, onEvent := callback, context := context }

/-- One match event delivered to the callback: `(id, from, to, flags)`
(`mfrom`/`mto` name the `from`/`to` parameters of the callback). -/
structure MatchEvent where
  id : Nat
  mfrom : Nat
  mto : Nat
  flags : Nat
deriving DecidableEq

/-- Terminal engine status of a scan call. -/
inductive ScanOutcome where
  | success
  | terminated
deriving DecidableEq

/-- Error kinds surfaced by a scan call. Modelled from the spec: the
status-code translation (`errors::AsResult`, outside src/) maps zero to
success and the engine's scan-terminated status to the `ScanTerminated`
kind. -/
inductive HsError where
  | ScanTerminated
deriving DecidableEq

/-- Modelled from the spec: the result a dispatcher returns for a terminal
engine status (`.ok()` on the raw status code; `errors::AsResult` is outside
src/). -/
def statusToResult : ScanOutcome → Except HsError Unit
  | .success => Except.ok ()
  | .terminated => Except.error HsError.ScanTerminated

/-- Modelled from the spec: the engine's match-delivery loop for a bound
callback `f` and context `d`. Discovered matches are delivered in order;
a zero return continues the scan, any non-zero return halts it immediately
with the scan-terminated status. Returns the list of events for which the
callback was invoked, and the terminal status. -/
def deliver {D : Type} (f : Nat → Nat → Nat → Nat → D → Nat) (d : D) :
    List MatchEvent → List MatchEvent × ScanOutcome
  | [] => ([], .success)
  | m :: rest =>
    if f m.id m.mfrom m.mto m.flags d = 0 then
      let r := deliver f d rest
      (m :: r.1, r.2)
    else
      ([m], .terminated)

/-- Modelled from the spec: one engine scan pass over the matches it
discovers. A null callback function pointer (`none`) suppresses match
production entirely and the pass succeeds; with a callback and a context the
delivery loop runs. (Invoking a callback with an absent context would pass
it a null reference — undefined behaviour at the boundary — and is modelled
as producing no events.) -/
def engineRun {D : Type} (callback : MatchEventCallback D) (context : Option D)
    (ms : List MatchEvent) : List MatchEvent × ScanOutcome :=
  match callback, context with
  | some f, some d => deliver f d ms
  | _, _ => ([], .success)

/-- Modelled from the spec: match discovery for a literal pattern over the
scanned bytes, reporting start/end offsets against the logical buffer as in
the spec's testable properties (pattern `test` in `foo test bar` is the
single event `(0, 4, 8, 0)`). -/
def literalMatches (pat text : List Nat) : List MatchEvent :=
  (List.range (text.length + 1 - pat.length)).filterMap fun i =>
    if (text.drop i).take pat.length = pat then
      some ⟨0, i, i + pat.length, 0⟩
    else none

/-- The bytes the engine reads for one buffer: `length` bytes (the `as u32`
truncated length) from its data pointer. -/
def scannedBytes (data : Buffer) : List Nat :=
  data.bytes.take (data.bytes.length % 2 ^ 32)

/-- A block-mode scan call, end to end: the `ffi::hs_scan` arguments the
dispatcher builds (src/hyperscan/src/runtime/scan.rs lines 40-64), then —
modelled from the spec — the engine pass over the matches of the literal
pattern in the buffer, and the result translation. Returns the argument
record, the callback invocations, and the call's result. -/
def blockScan {D : Type} (pat : List Nat) (db : Nat) (data : Buffer) (scratch : Nat)
    (callback : MatchEventCallback D) (context : Option D) :
    HsScanArgs D × List MatchEvent × Except HsError Unit :=
  let args := blockScanArgs db data scratch callback context
  let r := engineRun callback context (literalMatches pat (scannedBytes data))
  (args, r.1, statusToResult r.2)

/-- A vectored-mode scan call, end to end: the `ffi::hs_scan_vector`
arguments the dispatcher builds (src/hyperscan/src/runtime/scan.rs lines
69-102), then — modelled from the spec — the engine pass over the matches of
the literal pattern in the concatenation of the buffers (order determines
the concatenated offset semantics), and the result translation. -/
def vectoredScan {D : Type} (pat : List Nat) (db : Nat) (data : List Buffer)
    (scratch : Nat) (callback : MatchEventCallback D) (context : Option D) :
    HsScanVectorArgs D × List MatchEvent × Except HsError Unit :=
  let args := vectoredScanArgs db data scratch callback context
  let r := engineRun callback context (literalMatches pat (data.map scannedBytes).flatten)
  (args, r.1, statusToResult r.2)

/-- A streaming-mode scan call, end to end: the `ffi::hs_scan_stream`
arguments the dispatcher builds (src/hyperscan/src/runtime/scan.rs lines
107-131), then — modelled from the spec — the engine pass over the matches
that end inside the new chunk of the cumulative stream text (offsets are
cumulative since stream open), and the result translation. `history` is the
stream state: the bytes scanned on this handle so far. Returns the argument
record, the new stream state, the callback invocations, and the result. -/
def streamScan {D : Type} (pat : List Nat) (sid : Nat) (history : List Nat)
    (data : Buffer) (scratch : Nat) (callback : MatchEventCallback D)
    (context : Option D) :
    HsScanStreamArgs D × List Nat × List MatchEvent × Except HsError Unit :=
  let args := streamScanArgs sid data scratch callback context
  let text := history ++ scannedBytes data
  let ms := (literalMatches pat text).filter fun m => history.length < m.mto
  let r := engineRun callback context ms
  (args, text, r.1, statusToResult r.2)

/-! ### Helper lemmas for the scan claims -/

/-- Delivery over an empty match list succeeds with no invocations,
whatever the callback/context pair. -/
lemma engineRun_nil {D : Type} (callback : MatchEventCallback D) (context : Option D) :
    engineRun callback context [] = ([], ScanOutcome.success) := by
  cases callback <;> cases context <;> rfl

/-- A null callback function pointer suppresses match production entirely:
no invocations, success, whatever the context and match list. -/
lemma engineRun_none {D : Type} (context : Option D) (ms : List MatchEvent) :
    engineRun none context ms = ([], ScanOutcome.success) := by
  cases context <;> rfl

/-- When the callback returns zero on every delivered match, every match is
delivered and the pass succeeds. -/
lemma deliver_all_of_zero {D : Type} (f : Nat → Nat → Nat → Nat → D → Nat) (d : D)
    (ms : List MatchEvent) (h : ∀ x ∈ ms, f x.id x.mfrom x.mto x.flags d = 0) :
    deliver f d ms = (ms, ScanOutcome.success) := by
  induction ms with
  | nil => rfl
  | cons m rest ih =>
    have hm := h m (by simp)
    have hr := ih fun x hx => h x (by simp [hx])
    simp [deliver, hm, hr]

/-- The first non-zero callback return halts delivery: the callback runs on
the zero-returning ones before it and on it, then never again, and the pass
ends with the terminated status. -/
lemma deliver_halts_at_first_nonzero {D : Type} (f : Nat → Nat → Nat → Nat → D → Nat)
    (d : D) (pre post : List MatchEvent) (m : MatchEvent)
    (hpre : ∀ x ∈ pre, f x.id x.mfrom x.mto x.flags d = 0)
    (hm : f m.id m.mfrom m.mto m.flags d ≠ 0) :
    deliver f d (pre ++ m :: post) = (pre ++ [m], ScanOutcome.terminated) := by
  induction pre with
  | nil => simp [deliver, hm]
  | cons a rest ih =>
    have ha := hpre a (by simp)
    have hr := ih fun x hx => hpre x (by simp [hx])
    simp [deliver, ha, hr]

/-- A non-empty literal pattern has no match in empty text. -/
lemma literalMatches_nil_of_ne {pat : List Nat} (h : pat ≠ []) :
    literalMatches pat [] = [] := by
  have hlen : 1 - pat.length = 0 :=
    Nat.sub_eq_zero_of_le (Nat.one_le_iff_ne_zero.mpr (by simpa using h))
  simp [literalMatches, hlen]

/-! ### Claims about the scan dispatchers -/

/-- C10: in each of the three modes the reserved/flags argument handed to
the engine entry point (`hs_scan`, `hs_scan_vector`, `hs_scan_stream`) is
the constant zero, for every caller-controlled input. -/
theorem scan_flags_field_always_zero (D : Type) (db sid scratch : Nat) (data : Buffer)
    (bufs : List Buffer) (callback : MatchEventCallback D) (context : Option D) :
    (blockScanArgs db data scratch callback context).flags = 0 ∧
    (vectoredScanArgs db bufs scratch callback context).flags = 0 ∧
    (streamScanArgs sid data scratch callback context).flags = 0 :=
  ⟨rfl, rfl, rfl⟩

/-- C7: the length argument handed to `hs_scan` is the buffer's byte length
truncated to unsigned 32 bits (`len() as u32`, i.e. modulo `2 ^ 32`), with
no error raised for oversized buffers, and the data argument is the buffer's
data pointer. -/
theorem block_scan_length_truncated_u32 (D : Type) (db scratch : Nat) (data : Buffer)
    (callback : MatchEventCallback D) (context : Option D) :
    (blockScanArgs db data scratch callback context).length =
      data.bytes.length % 2 ^ 32 ∧
    (blockScanArgs db data scratch callback context).data = data.ptr ∧
    (blockScanArgs db data scratch callback context).length < 2 ^ 32 :=
  ⟨rfl, rfl, Nat.mod_lt _ (by positivity)⟩

/-- C2: the vectored dispatcher materializes the buffer sequence into two
parallel arrays in iteration order — the i-th pointer and i-th length come
from the i-th buffer — the arrays have equal length equal to the number of
buffers, and that count (as `u32`) is what is passed to `hs_scan_vector`. -/
theorem vectored_scan_parallel_arrays (D : Type) (db scratch : Nat) (data : List Buffer)
    (callback : MatchEventCallback D) (context : Option D) :
    (vectoredScanArgs db data scratch callback context).data = data.map Buffer.ptr ∧
    (vectoredScanArgs db data scratch callback context).length =
      data.map (fun buf => buf.bytes.length % 2 ^ 32) ∧
    (vectoredScanArgs db data scratch callback context).data.length = data.length ∧
    (vectoredScanArgs db data scratch callback context).length.length = data.length ∧
    (∀ i : Nat,
      (vectoredScanArgs db data scratch callback context).data[i]? =
        (data[i]?).map Buffer.ptr ∧
      (vectoredScanArgs db data scratch callback context).length[i]? =
        (data[i]?).map (fun buf => buf.bytes.length % 2 ^ 32)) ∧
    (vectoredScanArgs db data scratch callback context).count = data.length % 2 ^ 32 ∧
    (data.length < 2 ^ 32 →
      (vectoredScanArgs db data scratch callback context).count = data.length) := by
  have hdata : (vectoredScanArgs db data scratch callback context).data =
      data.map Buffer.ptr := by
    simp [vectoredScanArgs, List.unzip_eq_map, List.map_map, Function.comp_def]
  have hlen : (vectoredScanArgs db data scratch callback context).length =
      data.map (fun buf => buf.bytes.length % 2 ^ 32) := by
    simp [vectoredScanArgs, List.unzip_eq_map, List.map_map, Function.comp_def]
  refine ⟨hdata, hlen, by simp [hdata], by simp [hlen], ?_, ?_, ?_⟩
  · intro i
    constructor
    · simp [hdata]
    · simp [hlen]
  · simp [vectoredScanArgs, List.unzip_eq_map]
  · intro hle
    norm_num at hle
    simp [vectoredScanArgs, List.unzip_eq_map, Nat.mod_eq_of_lt, hle]

/-- C8: a vectored scan over the empty buffer sequence passes a buffer count
of zero (with empty pointer and length arrays, so zero bytes are scanned),
produces no callback invocations, and returns success. -/
theorem vectored_scan_empty_sequence (D : Type) (pat : List Nat) (hpat : pat ≠ [])
    (db scratch : Nat) (callback : MatchEventCallback D) (context : Option D) :
    (vectoredScan pat db [] scratch callback context).1.count = 0 ∧
    (vectoredScan pat db [] scratch callback context).1.data = [] ∧
    (vectoredScan pat db [] scratch callback context).1.length = [] ∧
    (vectoredScan pat db [] scratch callback context).2.1 = [] ∧
    (vectoredScan pat db [] scratch callback context).2.2 = Except.ok () := by
  have hm : literalMatches pat [] = [] := literalMatches_nil_of_ne hpat
  refine ⟨rfl, rfl, rfl, ?_, ?_⟩ <;>
  simp [vectoredScan, hm, engineRun_nil, statusToResult]

/-- Witness for C8 at the concrete input `D = Nat`, pattern `[1]`, no
callback, no context. -/
theorem vectored_scan_empty_sequence_witness :
    (vectoredScan [1] 0 [] 0 (none : MatchEventCallback Nat) none).1.count = 0 ∧
    (vectoredScan [1] 0 [] 0 (none : MatchEventCallback Nat) none).1.data = [] ∧
    (vectoredScan [1] 0 [] 0 (none : MatchEventCallback Nat) none).1.length = [] ∧
    (vectoredScan [1] 0 [] 0 (none : MatchEventCallback Nat) none).2.1 = [] ∧
    (vectoredScan [1] 0 [] 0 (none : MatchEventCallback Nat) none).2.2 = Except.ok () :=
  vectored_scan_empty_sequence Nat [1] (by decide) 0 0 none none

/-- C3 counterexample: at the concrete input `callback = none`,
`context = some 7`, the block dispatcher accepts the call — it builds the
engine arguments with a null callback and the context passed through
non-absent, and the scan call completes successfully — instead of rejecting
a context supplied without a callback or forcing the context to be absent. -/
theorem scan_ctx_without_callback_accepted_counterexample :
    (blockScanArgs 0 ⟨0, []⟩ 0 (none : MatchEventCallback Nat) (some 7)).onEvent = none ∧
    (blockScanArgs 0 ⟨0, []⟩ 0 (none : MatchEventCallback Nat) (some 7)).context = some 7 ∧
    (blockScanArgs 0 ⟨0, []⟩ 0 (none : MatchEventCallback Nat) (some 7)).context ≠ none ∧
    (blockScan [1] 0 ⟨0, []⟩ 0 (none : MatchEventCallback Nat) (some 7)).2.2 =
      Except.ok () :=
  ⟨rfl, rfl, by simp [blockScanArgs], rfl⟩

/-- C3 as amended: whenever the callback argument is `none` the engine
receives a null callback function pointer, so no match events are produced
and the scan succeeds in all three modes; the context argument is passed
through to the engine exactly as supplied and is not required to be absent —
a call supplying a context without a callback is accepted. -/
theorem scan_none_callback_null_fn_and_ctx_passed_through (D : Type) (context : Option D)
    (pat : List Nat) (db sid scratch : Nat) (data : Buffer) (bufs : List Buffer)
    (history : List Nat) :
    (blockScanArgs db data scratch none context).onEvent = none ∧
    (vectoredScanArgs db bufs scratch none context).onEvent = none ∧
    (streamScanArgs sid data scratch none context).onEvent = none ∧
    (blockScanArgs db data scratch none context).context = context ∧
    (vectoredScanArgs db bufs scratch none context).context = context ∧
    (streamScanArgs sid data scratch none context).context = context ∧
    (blockScan pat db data scratch none context).2 = ([], Except.ok ()) ∧
    (vectoredScan pat db bufs scratch none context).2 = ([], Except.ok ()) ∧
    (streamScan pat sid history data scratch none context).2.2 = ([], Except.ok ()) := by
  refine ⟨rfl, rfl, rfl, rfl, rfl, rfl, ?_, ?_, ?_⟩ <;>
  simp [blockScan, vectoredScan, streamScan, engineRun_none, statusToResult]

/-- C1: in every mode, a scan call with a supplied callback delivers matches
through the shared engine loop: a zero return continues the scan (the
callback may be invoked again within the same call), while the first
non-zero return halts delivery immediately — no further invocations — and
the call reports the `ScanTerminated` error kind instead of success. The
last three conjuncts record that each mode's scan call produces its
invocations and result exactly through this loop and status translation. -/
theorem scan_callback_return_controls_continuation (D : Type)
    (f : Nat → Nat → Nat → Nat → D → Nat) (d : D)
    (pre post : List MatchEvent) (m : MatchEvent)
    (hpre : ∀ x ∈ pre, f x.id x.mfrom x.mto x.flags d = 0)
    (hm : f m.id m.mfrom m.mto m.flags d ≠ 0) :
    engineRun (some f) (some d) (pre ++ m :: post) = (pre ++ [m], ScanOutcome.terminated) ∧
    statusToResult ScanOutcome.terminated = Except.error HsError.ScanTerminated ∧
    (∀ ms : List MatchEvent, (∀ x ∈ ms, f x.id x.mfrom x.mto x.flags d = 0) →
      engineRun (some f) (some d) ms = (ms, ScanOutcome.success)) ∧
    statusToResult ScanOutcome.success = Except.ok () ∧
    (∀ (pat : List Nat) (db scratch : Nat) (data : Buffer),
      (blockScan pat db data scratch (some f) (some d)).2.1 =
        (engineRun (some f) (some d) (literalMatches pat (scannedBytes data))).1 ∧
      (blockScan pat db data scratch (some f) (some d)).2.2 =
        statusToResult
          (engineRun (some f) (some d) (literalMatches pat (scannedBytes data))).2) ∧
    (∀ (pat : List Nat) (db scratch : Nat) (bufs : List Buffer),
      (vectoredScan pat db bufs scratch (some f) (some d)).2.1 =
        (engineRun (some f) (some d)
          (literalMatches pat (bufs.map scannedBytes).flatten)).1 ∧
      (vectoredScan pat db bufs scratch (some f) (some d)).2.2 =
        statusToResult (engineRun (some f) (some d)
          (literalMatches pat (bufs.map scannedBytes).flatten)).2) ∧
    (∀ (pat : List Nat) (sid scratch : Nat) (history : List Nat) (data : Buffer),
      (streamScan pat sid history data scratch (some f) (some d)).2.2.1 =
        (engineRun (some f) (some d)
          ((literalMatches pat (history ++ scannedBytes data)).filter
            fun x => history.length < x.mto)).1 ∧
      (streamScan pat sid history data scratch (some f) (some d)).2.2.2 =
        statusToResult (engineRun (some f) (some d)
          ((literalMatches pat (history ++ scannedBytes data)).filter
            fun x => history.length < x.mto)).2) := by
  refine ⟨?_, rfl, ?_, rfl, fun _ _ _ _ => ⟨rfl, rfl⟩, fun _ _ _ _ => ⟨rfl, rfl⟩,
    fun _ _ _ _ _ => ⟨rfl, rfl⟩⟩
  · exact deliver_halts_at_first_nonzero f d pre post m hpre hm
  · exact fun ms hms => deliver_all_of_zero f d ms hms

/-- A concrete callback for the C1 witness: it returns the match's `from`
offset, so it continues (returns zero) on a match starting at offset zero
and halts (returns non-zero) on any other match. -/
def cbFromValue : Nat → Nat → Nat → Nat → Nat → Nat :=
  fun _ mfrom _ _ _ => mfrom

/-- Witness for C1 at the concrete input `D = Nat`, callback `cbFromValue`,
context `0`, one zero-returning match before a halting match, one undelivered
match after it. -/
theorem scan_callback_return_controls_continuation_witness :
    engineRun (some cbFromValue) (some 0)
        (([⟨0, 0, 3, 0⟩] : List MatchEvent) ++ (⟨0, 4, 8, 0⟩ : MatchEvent) ::
          ([⟨0, 9, 12, 0⟩] : List MatchEvent)) =
      (([⟨0, 0, 3, 0⟩] : List MatchEvent) ++ [⟨0, 4, 8, 0⟩], ScanOutcome.terminated) ∧
    statusToResult ScanOutcome.terminated = Except.error HsError.ScanTerminated ∧
    (∀ ms : List MatchEvent,
      (∀ x ∈ ms, cbFromValue x.id x.mfrom x.mto x.flags 0 = 0) →
      engineRun (some cbFromValue) (some 0) ms = (ms, ScanOutcome.success)) ∧
    statusToResult ScanOutcome.success = Except.ok () ∧
    (∀ (pat : List Nat) (db scratch : Nat) (data : Buffer),
      (blockScan pat db data scratch (some cbFromValue) (some 0)).2.1 =
        (engineRun (some cbFromValue) (some 0)
          (literalMatches pat (scannedBytes data))).1 ∧
      (blockScan pat db data scratch (some cbFromValue) (some 0)).2.2 =
        statusToResult (engineRun (some cbFromValue) (some 0)
          (literalMatches pat (scannedBytes data))).2) ∧
    (∀ (pat : List Nat) (db scratch : Nat) (bufs : List Buffer),
      (vectoredScan pat db bufs scratch (some cbFromValue) (some 0)).2.1 =
        (engineRun (some cbFromValue) (some 0)
          (literalMatches pat (bufs.map scannedBytes).flatten)).1 ∧
      (vectoredScan pat db bufs scratch (some cbFromValue) (some 0)).2.2 =
        statusToResult (engineRun (some cbFromValue) (some 0)
          (literalMatches pat (bufs.map scannedBytes).flatten)).2) ∧
    (∀ (pat : List Nat) (sid scratch : Nat) (history : List Nat) (data : Buffer),
      (streamScan pat sid history data scratch (some cbFromValue) (some 0)).2.2.1 =
        (engineRun (some cbFromValue) (some 0)
          ((literalMatches pat (history ++ scannedBytes data)).filter
            fun x => history.length < x.mto)).1 ∧
      (streamScan pat sid history data scratch (some cbFromValue) (some 0)).2.2.2 =
        statusToResult (engineRun (some cbFromValue) (some 0)
          ((literalMatches pat (history ++ scannedBytes data)).filter
            fun x => history.length < x.mto)).2) :=
  scan_callback_return_controls_continuation Nat cbFromValue 0
    [⟨0, 0, 3, 0⟩] [⟨0, 9, 12, 0⟩] ⟨0, 4, 8, 0⟩ (by decide) (by decide)

/-- Grounding check against the repository's block-scan test: the literal
pattern `test` (bytes 116 101 115 116) against `foo test bar` discovers
exactly one event, `(id 0, from 4, to 8, flags 0)`. -/
theorem literalMatches_block_test_example :
    literalMatches [116, 101, 115, 116]
        [102, 111, 111, 32, 116, 101, 115, 116, 32, 98, 97, 114] =
      [⟨0, 4, 8, 0⟩] := by
  decide

/-- Grounding check against the repository's vectored-scan test: the same
pattern against the concatenation of `foo`, `test`, `bar` discovers exactly
one event with the cumulative offsets `(from 3, to 7)`. -/
theorem literalMatches_vectored_test_example :
    literalMatches [116, 101, 115, 116]
        ([[102, 111, 111], [116, 101, 115, 116], [98, 97, 114]].flatten) =
      [⟨0, 3, 7, 0⟩] := by
  decide
